import Mathlib

/-!
Shallow embedding of the llm-shield trust-and-provenance core
(crates llm-security-core and llm-shield-api models) in Lean 4.

Modelling conventions:
* Machine clocks are explicit `Int` parameters (`now`), in seconds for the
  token protocol and in milliseconds for span timing, matching the units the
  source computes with (`age.num_seconds()`, `num_milliseconds()`).
* RFC-3339 timestamp strings are modelled by `TimeStr`: a string either
  parses to an instant (`TimeStr.valid t`, rendered non-empty) or it does
  not (`TimeStr.invalid raw`).  `TimeStr.parse` is the embedding of
  `DateTime::parse_from_rfc3339` / `str::parse::<DateTime<Utc>>`.
* The HMAC-SHA256 hex signature string is modelled symbolically (ideal MAC):
  `SigStr.mac secret payload` is the hex MAC of `payload` under `secret`,
  and `SigStr.other raw` is any other string (non-hex strings and hex
  strings that are not a MAC of anything relevant).  Constructor injectivity
  embeds collision-freedom of HMAC-SHA256; a decode failure and a mismatch
  are both the same error variant in the source, so both live on the
  not-equal branch of the comparison.
* `Uuid::new_v4()` values are explicit string parameters.
* Rust `Result<T, GatewayError>` is `Except GatewayError T`.
-/

/-- A timestamp wire string: either one that parses to an instant `t`
(its rendering is never empty), or an arbitrary unparseable string. -/
inductive TimeStr where
  | valid (t : Int)
  | invalid (raw : String)
deriving DecidableEq

/-- Embedding of RFC-3339 parsing: succeeds exactly on `valid` strings. -/
def TimeStr.parse : TimeStr → Option Int
  | .valid t => some t
  | .invalid _ => none

/-- The underlying string of a timestamp; a parseable RFC-3339 string is
never empty, so only `invalid` can render empty. -/
def TimeStr.render : TimeStr → String
  | .valid t => "T" ++ toString t
  | .invalid raw => raw

/-- `String::is_empty` on the timestamp wire string. -/
def TimeStr.isEmptyStr : TimeStr → Bool
  | .valid _ => false
  | .invalid raw => raw = ""

/-- A signature wire string: `mac secret payload` is the hex-encoded
HMAC-SHA256 of `payload` keyed by `secret` (64 hex chars, never empty);
`other raw` is any other string, including non-hex garbage. -/
inductive SigStr where
  | mac (secret payload : String)
  | other (raw : String)
deriving DecidableEq

/-- `String::is_empty` on the signature wire string. -/
def SigStr.isEmptyStr : SigStr → Bool
  | .mac _ _ => false
  | .other raw => raw = ""

/-- Opaque error of the out-of-scope Shield SDK (`llm_shield_sdk::SdkError`). -/
structure SdkError where
  message : String
deriving DecidableEq

/-- `llm_security_core::error::GatewayError`. -/
inductive GatewayError where
  | invalidCallerToken (msg : String)
  | expiredCallerToken (msg : String)
  | missingExecutionContext (msg : String)
  | policyDenied (msg : String)
  | directAccess (msg : String)
  | shield (e : SdkError)
deriving DecidableEq

/-- Discriminator: is this error the expired-caller-token variant? -/
def GatewayError.isExpired : GatewayError → Bool
  | .expiredCallerToken _ => true
  | _ => false

/-- Discriminator: is this error the invalid-caller-token variant? -/
def GatewayError.isInvalidTok : GatewayError → Bool
  | .invalidCallerToken _ => true
  | _ => false

/-- Discriminator: is this error the policy-denied variant? -/
def GatewayError.isPolicyDenied : GatewayError → Bool
  | .policyDenied _ => true
  | _ => false

/-- Does a validation result hold an expired-caller-token error? -/
def isExpiredResult : Except GatewayError Unit → Bool
  | .error e => e.isExpired
  | .ok _ => false

/-- Does a validation result hold an invalid-caller-token error? -/
def isInvalidTokResult : Except GatewayError Unit → Bool
  | .error e => e.isInvalidTok
  | .ok _ => false

/-- `llm_security_core::caller_token`: default TTL (seconds). -/
def DEFAULT_TTL_SECONDS : Int := 300

/-- `llm_security_core::caller_token`: allowed clock skew (seconds). -/
def MAX_CLOCK_SKEW_SECONDS : Int := 30

/-- `llm_security_core::caller_token::CallerToken`. -/
structure CallerToken where
  caller_id : String
  signature : SigStr
  issued_at : TimeStr
deriving DecidableEq

/-- `compute_signature`: hex-encoded HMAC-SHA256 of `caller_id|issued_at`
keyed by `secret` (the `HmacSha256::new_from_slice` error branch is dead:
HMAC accepts keys of any length). -/
def compute_signature (caller_id issued_at : String) (secret : String) : SigStr :=
  SigStr.mac secret (caller_id ++ "|" ++ issued_at)

/-- `CallerToken::create`; `now` is `Utc::now()` in seconds. -/
def CallerToken.create (caller_id : String) (shared_secret : String) (now : Int) :
    Except GatewayError CallerToken :=
  if caller_id = "" then
    .error (.invalidCallerToken "caller_id must not be empty")
  else if shared_secret = "" then
    .error (.invalidCallerToken "shared_secret must not be empty")
  else
    let issued_at := TimeStr.valid now
    .ok { caller_id := caller_id
          signature := compute_signature caller_id issued_at.render shared_secret
          issued_at := issued_at }

/-- `CallerToken::validate`; `now` is `Utc::now()` in seconds.  The hex
decode failure and the constant-time `verify_slice` mismatch are both the
invalid-caller-token variant in the source; in the symbolic MAC model both
are the branch where the stored signature differs from the recomputed MAC. -/
def CallerToken.validate (tok : CallerToken) (shared_secret : String)
    (ttl_seconds : Option Int) (now : Int) : Except GatewayError Unit :=
  let ttl := ttl_seconds.getD DEFAULT_TTL_SECONDS
  if tok.caller_id = "" then
    .error (.invalidCallerToken "caller_id is empty")
  else if tok.signature.isEmptyStr then
    .error (.invalidCallerToken "signature is empty")
  else if tok.issued_at.isEmptyStr then
    .error (.invalidCallerToken "issued_at is empty")
  else if tok.signature =
      compute_signature tok.caller_id tok.issued_at.render shared_secret then
    match tok.issued_at.parse with
    | none => .error (.invalidCallerToken "invalid issued_at timestamp")
    | some issued =>
      let age := now - issued
      if age > ttl then
        .error (.expiredCallerToken
          ("age: " ++ toString age ++ "s, TTL: " ++ toString ttl ++ "s"))
      else if age < -MAX_CLOCK_SKEW_SECONDS then
        .error (.invalidCallerToken "issued_at is in the future")
      else
        .ok ()
  else
    .error (.invalidCallerToken "signature mismatch")

/-- `llm_security_core::policy::GatewayContext`. -/
structure GatewayContext where
  execution_id : String
  parent_span_id : String
  caller : CallerToken
deriving DecidableEq

/-- `llm_security_core::policy::PolicyDecision`. -/
structure PolicyDecision where
  allowed : Bool
  reason : Option String
deriving DecidableEq

/-- `PolicyDecision::allow`. -/
def PolicyDecision.allow : PolicyDecision :=
  { allowed := true, reason := none }

/-- `PolicyDecision::deny`. -/
def PolicyDecision.deny (reason : String) : PolicyDecision :=
  { allowed := false, reason := some reason }

/-- A `Box<dyn CentralizedPolicy>`: one `authorize(context, operation)`
operation, as a function value. -/
def CentralizedPolicy : Type :=
  GatewayContext → String → Except GatewayError PolicyDecision

/-- `llm_security_core::policy::DefaultPolicy`: allows all operations. -/
def DefaultPolicy : CentralizedPolicy :=
  fun _ _ => .ok PolicyDecision.allow

/-- A scan result of the out-of-scope scanning capability: an opaque value
describing validity and a risk indicator. -/
structure ScanResult where
  valid : Bool
  risk_score : Int
deriving DecidableEq

/-- Modelled from the spec: the out-of-scope scanning capability
(`llm_shield_sdk::Shield`, excluded from this repository's core) exposes
`scan_prompt(text)`, `scan_output(text)`, `scan_batch(texts)`, "each
returning a result describing validity and a risk indicator, or failing
with a capability-level error". -/
structure Shield where
  scan_prompt_op : String → Except SdkError ScanResult
  scan_output_op : String → Except SdkError ScanResult
  scan_batch_op : List String → Except SdkError (List ScanResult)

/-- Modelled from the spec: `Preset` of the out-of-scope SDK — "three
fixed configuration presets ... for constructing capability instances". -/
inductive Preset where
  | standardPreset
  | strictPreset
  | permissivePreset
deriving DecidableEq

/-- Modelled from the spec: the capability instance a preset constructs is
opaque; each preset yields some total scanning capability, and its
construction is assumed to succeed (the SDK is "assumed to exist"). -/
def Shield.fromPreset : Preset → Shield
  | _ => { scan_prompt_op := fun _ => .ok { valid := true, risk_score := 0 }
           scan_output_op := fun _ => .ok { valid := true, risk_score := 0 }
           scan_batch_op := fun _ => .ok [] }

/-- `gateway.rs`: `DEFAULT_TOKEN_TTL_SECONDS`. -/
def DEFAULT_TOKEN_TTL_SECONDS : Int := 300

/-- `llm_security_core::gateway::SecurityCore`. -/
structure SecurityCore where
  shield : Shield
  shared_secret : String
  token_ttl_seconds : Int
  policy : CentralizedPolicy

/-- `SecurityCore::standard` (the `Shield::standard()` constructor of the
out-of-scope SDK is modelled as succeeding; the shared secret is stored
without any check). -/
def SecurityCore.standard (shared_secret : String) :
    Except GatewayError SecurityCore :=
  .ok { shield := Shield.fromPreset .standardPreset
        shared_secret := shared_secret
        token_ttl_seconds := DEFAULT_TOKEN_TTL_SECONDS
        policy := DefaultPolicy }

/-- `SecurityCore::strict`. -/
def SecurityCore.strict (shared_secret : String) :
    Except GatewayError SecurityCore :=
  .ok { shield := Shield.fromPreset .strictPreset
        shared_secret := shared_secret
        token_ttl_seconds := DEFAULT_TOKEN_TTL_SECONDS
        policy := DefaultPolicy }

/-- `SecurityCore::permissive`. -/
def SecurityCore.permissive (shared_secret : String) :
    Except GatewayError SecurityCore :=
  .ok { shield := Shield.fromPreset .permissivePreset
        shared_secret := shared_secret
        token_ttl_seconds := DEFAULT_TOKEN_TTL_SECONDS
        policy := DefaultPolicy }

/-- `SecurityCore::validate_context`. -/
def SecurityCore.validate_context (core : SecurityCore) (ctx : GatewayContext)
    (now : Int) : Except GatewayError Unit :=
  if ctx.execution_id = "" then
    .error (.missingExecutionContext "execution_id is required")
  else if ctx.parent_span_id = "" then
    .error (.missingExecutionContext "parent_span_id is required")
  else
    match ctx.caller.validate core.shared_secret (some core.token_ttl_seconds) now with
    | .error e => .error e
    | .ok _ => .ok ()

/-- `SecurityCore::authorize_operation`: `?` on the policy call propagates
the policy's own error unchanged; a returned decision with
`allowed = false` becomes `PolicyDenied(reason.unwrap_or_default())`. -/
def SecurityCore.authorize_operation (core : SecurityCore) (ctx : GatewayContext)
    (operation : String) : Except GatewayError Unit :=
  match core.policy ctx operation with
  | .error e => .error e
  | .ok decision =>
    if !decision.allowed then
      .error (.policyDenied (decision.reason.getD ""))
    else
      .ok ()

/-- `SecurityCore::scan_prompt`.  The `Bool` component instruments the
control flow: it is `true` exactly when the delegation step ran, i.e. when
the `GATEWAY_TOKEN.scope` block invoked `shield.scan_prompt` (the ambient
caller-identity binding itself is a concurrency feature out of scope here).
The `Except` component is the value the source returns. -/
def SecurityCore.scan_prompt (core : SecurityCore) (text : String)
    (ctx : GatewayContext) (now : Int) :
    Except GatewayError ScanResult × Bool :=
  match core.validate_context ctx now with
  | .error e => (.error e, false)
  | .ok _ =>
    match core.authorize_operation ctx "scan_prompt" with
    | .error e => (.error e, false)
    | .ok _ =>
      (match core.shield.scan_prompt_op text with
       | .error e => .error (.shield e)
       | .ok r => .ok r, true)

/-- `SecurityCore::scan_output`, instrumented like `scan_prompt`. -/
def SecurityCore.scan_output (core : SecurityCore) (text : String)
    (ctx : GatewayContext) (now : Int) :
    Except GatewayError ScanResult × Bool :=
  match core.validate_context ctx now with
  | .error e => (.error e, false)
  | .ok _ =>
    match core.authorize_operation ctx "scan_output" with
    | .error e => (.error e, false)
    | .ok _ =>
      (match core.shield.scan_output_op text with
       | .error e => .error (.shield e)
       | .ok r => .ok r, true)

/-- `SecurityCore::scan_batch`, instrumented like `scan_prompt`. -/
def SecurityCore.scan_batch (core : SecurityCore) (texts : List String)
    (ctx : GatewayContext) (now : Int) :
    Except GatewayError (List ScanResult) × Bool :=
  match core.validate_context ctx now with
  | .error e => (.error e, false)
  | .ok _ =>
    match core.authorize_operation ctx "scan_batch" with
    | .error e => (.error e, false)
    | .ok _ =>
      (match core.shield.scan_batch_op texts with
       | .error e => .error (.shield e)
       | .ok r => .ok r, true)

/-- `llm_security_core::gateway::SecurityCoreBuilder`. -/
structure SecurityCoreBuilder where
  shared_secret : String
  preset : Preset
  token_ttl_seconds : Int
  policy : Option CentralizedPolicy

/-- `SecurityCoreBuilder::new` (via `SecurityCore::builder()`). -/
def SecurityCoreBuilder.new : SecurityCoreBuilder :=
  { shared_secret := ""
    preset := .standardPreset
    token_ttl_seconds := DEFAULT_TOKEN_TTL_SECONDS
    policy := none }

/-- `SecurityCore::builder`. -/
def SecurityCore.mkBuilder : SecurityCoreBuilder :=
  SecurityCoreBuilder.new

/-- `SecurityCoreBuilder::with_secret`. -/
def SecurityCoreBuilder.with_secret (b : SecurityCoreBuilder) (secret : String) :
    SecurityCoreBuilder :=
  { b with shared_secret := secret }

/-- `SecurityCoreBuilder::with_preset`. -/
def SecurityCoreBuilder.with_preset (b : SecurityCoreBuilder) (p : Preset) :
    SecurityCoreBuilder :=
  { b with preset := p }

/-- `SecurityCoreBuilder::with_token_ttl`. -/
def SecurityCoreBuilder.with_token_ttl (b : SecurityCoreBuilder) (seconds : Int) :
    SecurityCoreBuilder :=
  { b with token_ttl_seconds := seconds }

/-- `SecurityCoreBuilder::with_policy`. -/
def SecurityCoreBuilder.with_policy (b : SecurityCoreBuilder)
    (p : CentralizedPolicy) : SecurityCoreBuilder :=
  { b with policy := some p }

/-- `SecurityCoreBuilder::build`: rejects an empty shared secret, then
constructs the capability from the chosen preset (modelled as succeeding)
and defaults the policy to allow-all. -/
def SecurityCoreBuilder.build (b : SecurityCoreBuilder) :
    Except GatewayError SecurityCore :=
  if b.shared_secret = "" then
    .error (.invalidCallerToken "shared_secret is required for SecurityCore")
  else
    .ok { shield := Shield.fromPreset b.preset
          shared_secret := b.shared_secret
          token_ttl_seconds := b.token_ttl_seconds
          policy := b.policy.getD DefaultPolicy }

/-- `serde_json::Value` (the fragment the span model needs). -/
inductive Json where
  | null
  | bool (b : Bool)
  | num (n : Int)
  | str (s : String)
  | arr (xs : List Json)
  | obj (fields : List (String × Json))

/-- `llm_shield_api::models::execution::SpanType`. -/
inductive SpanType where
  | core
  | repo
  | agent
deriving DecidableEq

/-- `llm_shield_api::models::execution::SpanStatus`. -/
inductive SpanStatus where
  | running
  | completed
  | error
deriving DecidableEq

/-- `llm_shield_api::models::execution::SpanArtifact`. -/
structure SpanArtifact where
  artifact_id : String
  artifact_type : String
  data : Json
  timestamp : TimeStr

/-- `llm_shield_api::models::execution::ExecutionSpan`.  Recursive through
`children`, so an inductive with one constructor; field order matches the
source struct. -/
inductive ExecutionSpan where
  | mk (span_id : String) (span_type : SpanType) (parent_span_id : String)
       (execution_id : String) (name : String)
       (attributes : List (String × String)) (start_time : TimeStr)
       (end_time : Option TimeStr) (status : SpanStatus)
       (duration_ms : Option Nat) (artifacts : List SpanArtifact)
       (children : List ExecutionSpan)

/-- Field accessor. -/
def ExecutionSpan.span_id : ExecutionSpan → String
  | .mk v _ _ _ _ _ _ _ _ _ _ _ => v

/-- Field accessor. -/
def ExecutionSpan.span_type : ExecutionSpan → SpanType
  | .mk _ v _ _ _ _ _ _ _ _ _ _ => v

/-- Field accessor. -/
def ExecutionSpan.parent_span_id : ExecutionSpan → String
  | .mk _ _ v _ _ _ _ _ _ _ _ _ => v

/-- Field accessor. -/
def ExecutionSpan.execution_id : ExecutionSpan → String
  | .mk _ _ _ v _ _ _ _ _ _ _ _ => v

/-- Field accessor. -/
def ExecutionSpan.name : ExecutionSpan → String
  | .mk _ _ _ _ v _ _ _ _ _ _ _ => v

/-- Field accessor. -/
def ExecutionSpan.attributes : ExecutionSpan → List (String × String)
  | .mk _ _ _ _ _ v _ _ _ _ _ _ => v

/-- Field accessor. -/
def ExecutionSpan.start_time : ExecutionSpan → TimeStr
  | .mk _ _ _ _ _ _ v _ _ _ _ _ => v

/-- Field accessor. -/
def ExecutionSpan.end_time : ExecutionSpan → Option TimeStr
  | .mk _ _ _ _ _ _ _ v _ _ _ _ => v

/-- Field accessor. -/
def ExecutionSpan.status : ExecutionSpan → SpanStatus
  | .mk _ _ _ _ _ _ _ _ v _ _ _ => v

/-- Field accessor. -/
def ExecutionSpan.duration_ms : ExecutionSpan → Option Nat
  | .mk _ _ _ _ _ _ _ _ _ v _ _ => v

/-- Field accessor. -/
def ExecutionSpan.artifacts : ExecutionSpan → List SpanArtifact
  | .mk _ _ _ _ _ _ _ _ _ _ v _ => v

/-- Field accessor. -/
def ExecutionSpan.children : ExecutionSpan → List ExecutionSpan
  | .mk _ _ _ _ _ _ _ _ _ _ _ v => v

/-- `llm_shield_api::models::execution::ExecutionOutput`. -/
structure ExecutionOutput where
  execution_id : String
  repo_span : ExecutionSpan

/-- `(now - start).num_milliseconds() as u64`: the `i64` millisecond count
cast to `u64` with two's-complement wrapping. -/
def u64ofInt (x : Int) : Nat :=
  (x % (2 ^ 64)).toNat

/-- `ExecutionSpan::new_repo`; `span_id` is the fresh `Uuid::new_v4()`,
`now` the clock (milliseconds). -/
def ExecutionSpan.new_repo (execution_id parent_span_id : String)
    (span_id : String) (now : Int) : ExecutionSpan :=
  .mk span_id .repo parent_span_id execution_id "llm-shield"
    [("repo_name", "llm-shield")] (.valid now) none .running none [] []

/-- `ExecutionSpan::new_agent`. -/
def ExecutionSpan.new_agent (repo_span : ExecutionSpan) (agent_name : String)
    (span_id : String) (now : Int) : ExecutionSpan :=
  .mk span_id .agent repo_span.span_id repo_span.execution_id agent_name
    [("agent_name", agent_name), ("repo_name", "llm-shield")]
    (.valid now) none .running none [] []

/-- `ExecutionSpan::attach_artifact`; `artifact_id` is the fresh UUID. -/
def ExecutionSpan.attach_artifact (s : ExecutionSpan) (artifact_type : String)
    (data : Json) (artifact_id : String) (now : Int) : ExecutionSpan :=
  match s with
  | .mk sid ty pid eid nm attrs st et stat dur arts childs =>
    .mk sid ty pid eid nm attrs st et stat dur
      (arts ++ [{ artifact_id := artifact_id, artifact_type := artifact_type
                  data := data, timestamp := .valid now }])
      childs

/-- `ExecutionSpan::complete`: sets `end_time` and `status`, and sets
`duration_ms` only when `start_time` parses (an unparseable start leaves
the stored `duration_ms` untouched). -/
def ExecutionSpan.complete (s : ExecutionSpan) (now : Int) : ExecutionSpan :=
  match s with
  | .mk sid ty pid eid nm attrs st _ _ dur arts childs =>
    .mk sid ty pid eid nm attrs st (some (.valid now)) .completed
      (match st.parse with
       | some start => some (u64ofInt (now - start))
       | none => dur)
      arts childs

/-- `ExecutionSpan::fail`: same timing bookkeeping as `complete`, sets
`status = Error` and appends the synthetic "error" artifact carrying the
reason; `artifact_id` is the fresh UUID. -/
def ExecutionSpan.fail (s : ExecutionSpan) (error : String)
    (artifact_id : String) (now : Int) : ExecutionSpan :=
  match s with
  | .mk sid ty pid eid nm attrs st _ _ dur arts childs =>
    .mk sid ty pid eid nm attrs st (some (.valid now)) .error
      (match st.parse with
       | some start => some (u64ofInt (now - start))
       | none => dur)
      (arts ++ [{ artifact_id := artifact_id, artifact_type := "error"
                  data := .obj [("error_reason", .str error)]
                  timestamp := .valid now }])
      childs

/-- The hard error `finalize` returns on a childless repo span (the Rust
string literal uses a line continuation, yielding this single line). -/
def noAgentSpansMsg : String :=
  "Execution invariant violated: no agent-level spans were emitted. " ++
  "This repository MUST NOT return a successful result without agent spans."

/-- `ExecutionSpan::finalize`. -/
def ExecutionSpan.finalize (s : ExecutionSpan) (now : Int) :
    Except String ExecutionOutput :=
  if s.children.isEmpty then
    .error noAgentSpansMsg
  else
    let s' := if s.status = .running then s.complete now else s
    .ok { execution_id := s'.execution_id, repo_span := s' }

deriving instance DecidableEq for Except

/-- A token whose fields are exactly those `CallerToken::create` produces at
instant `t` under `secret` (equivalently, a token re-signed for `t`). -/
def tokenSigned (c secret : String) (t : Int) : CallerToken :=
  { caller_id := c
    signature := compute_signature c (TimeStr.render (.valid t)) secret
    issued_at := .valid t }

/-- A well-formed request context whose token was signed with `secret`. -/
def ctxWithToken (secret : String) : GatewayContext :=
  { execution_id := "exec-123"
    parent_span_id := "span-456"
    caller := tokenSigned "test-service" secret 0 }

/-- A context whose `execution_id` is empty. -/
def ctxEmptyExec : GatewayContext :=
  { execution_id := ""
    parent_span_id := "span-456"
    caller := tokenSigned "test-service" "s1" 0 }

/-- A gateway with secret `"s1"` and the default allow-all policy. -/
def stdCoreS1 : SecurityCore :=
  { shield := Shield.fromPreset .standardPreset
    shared_secret := "s1"
    token_ttl_seconds := 300
    policy := DefaultPolicy }

/-- A gateway whose policy check itself fails (with a non-policy-denied
gateway error), standing for a custom `CentralizedPolicy` whose
`authorize` returns `Err(...)`. -/
def failingPolicyCore : SecurityCore :=
  { shield := Shield.fromPreset .standardPreset
    shared_secret := "s1"
    token_ttl_seconds := 300
    policy := fun _ _ => .error (.shield { message := "policy backend unreachable" }) }

/-- A gateway whose policy denies every operation with a fixed reason. -/
def denyAllCore : SecurityCore :=
  { shield := Shield.fromPreset .standardPreset
    shared_secret := "s1"
    token_ttl_seconds := 300
    policy := fun _ _ => .ok (PolicyDecision.deny "denied by test policy") }

/-- A repo-level span holding one agent child (the repo span of
`new_repo "exec-123" "span-456"` after `children.push(new_agent ...)`). -/
def repoWithAgent : ExecutionSpan :=
  ExecutionSpan.mk "r1" .repo "span-456" "exec-123" "llm-shield"
    [("repo_name", "llm-shield")] (.valid 0) none .running none []
    [ExecutionSpan.new_agent
      (ExecutionSpan.new_repo "exec-123" "span-456" "r1" 0) "toxicity" "a1" 0]

/-- Evaluation of `CallerToken::validate` on a token whose stored signature
is exactly the MAC of its own payload under `s`: the field and signature
checks pass and the result is the pure age classification. -/
theorem validate_resigned_eq (c s : String) (t : Int) (ttlOpt : Option Int)
    (now : Int) (hc : c ≠ "") :
    CallerToken.validate
      { caller_id := c
        signature := compute_signature c (TimeStr.render (.valid t)) s
        issued_at := .valid t } s ttlOpt now =
    (if now - t > ttlOpt.getD 300 then
      .error (.expiredCallerToken
        ("age: " ++ toString (now - t) ++ "s, TTL: " ++ toString (ttlOpt.getD 300) ++ "s"))
    else if now - t < -30 then
      .error (.invalidCallerToken "issued_at is in the future")
    else .ok ()) := by
  unfold CallerToken.validate
  rw [if_neg hc]
  simp only [compute_signature, SigStr.isEmptyStr, TimeStr.isEmptyStr, TimeStr.parse,
    DEFAULT_TTL_SECONDS, MAX_CLOCK_SKEW_SECONDS, Bool.false_eq_true, if_false, if_pos rfl]
  exact if_pos trivial

/-- Claim C1: for every gateway, every scan operation and every context, a
context-validation failure or an authorization failure aborts the call with
that first error and the scanning capability is never invoked (the
instrumentation bit stays `false`); in particular an empty `execution_id`
yields the missing-execution-context error before any capability call. -/
theorem scan_ops_gatekeep (core : SecurityCore) (ctx : GatewayContext)
    (text : String) (texts : List String) (now : Int) :
    (∀ e : GatewayError, core.validate_context ctx now = .error e →
      core.scan_prompt text ctx now = (.error e, false) ∧
      core.scan_output text ctx now = (.error e, false) ∧
      core.scan_batch texts ctx now = (.error e, false)) ∧
    (∀ e : GatewayError, core.validate_context ctx now = .ok () →
      (core.authorize_operation ctx "scan_prompt" = .error e →
        core.scan_prompt text ctx now = (.error e, false)) ∧
      (core.authorize_operation ctx "scan_output" = .error e →
        core.scan_output text ctx now = (.error e, false)) ∧
      (core.authorize_operation ctx "scan_batch" = .error e →
        core.scan_batch texts ctx now = (.error e, false))) ∧
    (ctx.execution_id = "" →
      core.validate_context ctx now =
        .error (.missingExecutionContext "execution_id is required") ∧
      core.scan_prompt text ctx now =
        (.error (.missingExecutionContext "execution_id is required"), false)) := by
  refine ⟨?_, ?_, ?_⟩
  · intro e h
    refine ⟨?_, ?_, ?_⟩ <;>
      simp [SecurityCore.scan_prompt, SecurityCore.scan_output,
        SecurityCore.scan_batch, h]
  · intro e hok
    refine ⟨?_, ?_, ?_⟩ <;> intro ha <;>
      simp [SecurityCore.scan_prompt, SecurityCore.scan_output,
        SecurityCore.scan_batch, hok, ha]
  · intro h
    have hv : core.validate_context ctx now =
        .error (.missingExecutionContext "execution_id is required") := by
      unfold SecurityCore.validate_context
      rw [if_pos h]
    exact ⟨hv, by simp [SecurityCore.scan_prompt, hv]⟩

/-- Claim C1 witness: the `"s1"` gateway, given a context with empty
`execution_id`, fails with the missing-execution-context error and the
capability is not invoked. -/
theorem scan_ops_gatekeep_witness :
    ctxEmptyExec.execution_id = "" ∧
    stdCoreS1.validate_context ctxEmptyExec 0 =
      .error (.missingExecutionContext "execution_id is required") ∧
    stdCoreS1.scan_prompt "hello" ctxEmptyExec 0 =
      (.error (.missingExecutionContext "execution_id is required"), false) :=
  ⟨rfl,
   ((scan_ops_gatekeep stdCoreS1 ctxEmptyExec "hello" [] 0).2.2 rfl).1,
   ((scan_ops_gatekeep stdCoreS1 ctxEmptyExec "hello" [] 0).2.2 rfl).2⟩

/-- Claim C2: for all non-empty `caller_id` and `shared_secret`, creating a
token and validating it with the same secret and the default TTL succeeds. -/
theorem create_then_validate_ok (c s : String) (now : Int)
    (hc : c ≠ "") (hs : s ≠ "") :
    ∃ tok : CallerToken, CallerToken.create c s now = .ok tok ∧
      tok.validate s none now = .ok () := by
  refine ⟨{ caller_id := c
            signature := compute_signature c (TimeStr.render (.valid now)) s
            issued_at := .valid now }, ?_, ?_⟩
  · unfold CallerToken.create
    rw [if_neg hc, if_neg hs]
  · unfold CallerToken.validate
    simp only [SigStr.isEmptyStr, TimeStr.isEmptyStr, TimeStr.parse, Option.getD]
    rw [if_neg hc]
    simp only [compute_signature, Bool.false_eq_true, if_false, if_pos rfl, sub_self]
    norm_num [DEFAULT_TTL_SECONDS, MAX_CLOCK_SKEW_SECONDS]

/-- Claim C2 witness: concrete round trip with `caller_id = "svc"`,
`secret = "k1"`. -/
theorem create_then_validate_ok_witness :
    (("svc" : String) ≠ "" ∧ ("k1" : String) ≠ "") ∧
    (∃ tok : CallerToken, CallerToken.create "svc" "k1" 0 = .ok tok ∧
      tok.validate "k1" none 0 = .ok ()) :=
  ⟨⟨by decide, by decide⟩, create_then_validate_ok "svc" "k1" 0 (by decide) (by decide)⟩

/-- Claim C3: `finalize` on a repo span fails with the hard no-agent-spans
error exactly when `children` is empty; with at least one child it returns
the `{executionId, repoSpan}` envelope, completing the span when it was
still running and leaving an already-terminated span unchanged. -/
theorem finalize_requires_children (s : ExecutionSpan) (now : Int) :
    (s.children = [] → s.finalize now = .error noAgentSpansMsg) ∧
    (s.children ≠ [] →
      ∃ out : ExecutionOutput, s.finalize now = .ok out ∧
        out.execution_id = s.execution_id ∧
        (s.status = .running →
          out.repo_span.status = .completed ∧
          out.repo_span.end_time = some (.valid now)) ∧
        (s.status ≠ .running → out.repo_span = s)) := by
  cases s with
  | mk sid ty pid eid nm attrs st et stat dur arts childs =>
    constructor
    · intro h
      simp only [ExecutionSpan.children] at h
      subst h
      rfl
    · intro h
      simp only [ExecutionSpan.children] at h
      have hne : childs.isEmpty = false := by
        cases childs with
        | nil => exact absurd rfl h
        | cons a l => rfl
      by_cases hstat : stat = SpanStatus.running
      · subst hstat
        refine ⟨⟨eid, (ExecutionSpan.mk sid ty pid eid nm attrs st et
            SpanStatus.running dur arts childs).complete now⟩,
          ?_, rfl, fun _ => ⟨rfl, rfl⟩, fun hn => absurd rfl hn⟩
        unfold ExecutionSpan.finalize
        simp only [ExecutionSpan.children, hne, Bool.false_eq_true, if_false,
          ExecutionSpan.status, if_pos rfl]
        rfl
      · refine ⟨⟨eid, ExecutionSpan.mk sid ty pid eid nm attrs st et stat dur arts childs⟩,
          ?_, rfl, fun hr => absurd hr hstat, fun _ => rfl⟩
        unfold ExecutionSpan.finalize
        simp only [ExecutionSpan.children, hne, Bool.false_eq_true, if_false,
          ExecutionSpan.status, if_neg hstat]
        rfl

/-- Claim C3 witness: a repo span with one (running) agent child finalizes
to the envelope and is completed. -/
theorem finalize_requires_children_witness :
    repoWithAgent.children ≠ [] ∧
    (∃ out : ExecutionOutput, repoWithAgent.finalize 5 = .ok out ∧
      out.execution_id = repoWithAgent.execution_id ∧
      (repoWithAgent.status = .running →
        out.repo_span.status = .completed ∧
        out.repo_span.end_time = some (.valid 5)) ∧
      (repoWithAgent.status ≠ .running → out.repo_span = repoWithAgent)) :=
  ⟨List.cons_ne_nil _ _,
   (finalize_requires_children repoWithAgent 5).2 (List.cons_ne_nil _ _)⟩

/-- Claim C4 (amended): for a token whose signature verifies and whose
timestamp parses to `t`, validation reports expired exactly when
`age > ttl` (strict: a token exactly at the boundary is accepted); a token
dated more than 30 seconds in the future is reported invalid (not expired)
whenever `age ≤ ttl` — in particular for every TTL ≥ −30, hence for all
nonnegative TTLs; a token 600 seconds old is expired at TTL 300 and valid
at TTL 900. -/
theorem validate_age_classification (c s : String) (t ttl now : Int) (hc : c ≠ "") :
    (isExpiredResult (CallerToken.validate
        { caller_id := c
          signature := compute_signature c (TimeStr.render (.valid t)) s
          issued_at := .valid t } s (some ttl) now) = true ↔ now - t > ttl) ∧
    (now - t < -30 → now - t ≤ ttl →
      CallerToken.validate
        { caller_id := c
          signature := compute_signature c (TimeStr.render (.valid t)) s
          issued_at := .valid t } s (some ttl) now =
        .error (.invalidCallerToken "issued_at is in the future")) ∧
    (now - t = ttl → -30 ≤ ttl →
      CallerToken.validate
        { caller_id := c
          signature := compute_signature c (TimeStr.render (.valid t)) s
          issued_at := .valid t } s (some ttl) now = .ok ()) ∧
    (isExpiredResult (CallerToken.validate
        { caller_id := c
          signature := compute_signature c (TimeStr.render (.valid t)) s
          issued_at := .valid t } s (some 300) (t + 600)) = true) ∧
    (CallerToken.validate
        { caller_id := c
          signature := compute_signature c (TimeStr.render (.valid t)) s
          issued_at := .valid t } s (some 900) (t + 600) = .ok ()) := by
  rw [validate_resigned_eq c s t (some ttl) now hc,
    validate_resigned_eq c s t (some 300) (t + 600) hc,
    validate_resigned_eq c s t (some 900) (t + 600) hc]
  simp only [Option.getD]
  refine ⟨?_, ?_, ?_, ?_, ?_⟩
  · constructor
    · intro h
      by_contra hgt
      rw [if_neg hgt] at h
      split_ifs at h <;>
        simp [isExpiredResult, GatewayError.isExpired] at h
    · intro h
      rw [if_pos h]
      simp [isExpiredResult, GatewayError.isExpired]
  · intro hfut hle
    rw [if_neg (by omega), if_pos hfut]
  · intro hb hskew
    rw [if_neg (by omega), if_neg (by omega)]
  · rw [if_pos (by omega)]
    simp [isExpiredResult, GatewayError.isExpired]
  · rw [if_neg (by omega), if_neg (by omega)]

/-- Claim C4 counterexample: with TTL −100, a correctly signed token dated
50 seconds in the future (more than the 30-second skew) fails as
expired-token, not invalid-token, because the expiry check runs first —
refuting the unqualified future-token clause of the claim. -/
theorem validate_future_negative_ttl_cex :
    isExpiredResult (CallerToken.validate
      { caller_id := "svc"
        signature := compute_signature "svc" (TimeStr.render (.valid 50)) "k"
        issued_at := .valid 50 } "k" (some (-100)) 0) = true ∧
    isInvalidTokResult (CallerToken.validate
      { caller_id := "svc"
        signature := compute_signature "svc" (TimeStr.render (.valid 50)) "k"
        issued_at := .valid 50 } "k" (some (-100)) 0) = false :=
  ⟨by decide, by decide⟩

/-- Claim C4 witness: a token 600 seconds old validates at TTL 900. -/
theorem validate_age_classification_witness :
    (("svc" : String) ≠ "") ∧
    CallerToken.validate
      { caller_id := "svc"
        signature := compute_signature "svc" (TimeStr.render (.valid 0)) "k"
        issued_at := .valid 0 } "k" (some 900) ((0 : Int) + 600) = .ok () :=
  ⟨by decide, (validate_age_classification "svc" "k" 0 300 0 (by decide)).2.2.2.2⟩

/-- Claim C5 (amended): once context validation has succeeded, an error
returned by the policy's authorize check aborts the call with that error
propagated unchanged (so it is a policy-denied error only when the policy
itself produced one), and the capability is not invoked. -/
theorem policy_error_propagates_unchanged (core : SecurityCore)
    (ctx : GatewayContext) (text : String) (texts : List String) (now : Int)
    (e : GatewayError) (hok : core.validate_context ctx now = .ok ()) :
    (core.policy ctx "scan_prompt" = .error e →
      core.scan_prompt text ctx now = (.error e, false)) ∧
    (core.policy ctx "scan_output" = .error e →
      core.scan_output text ctx now = (.error e, false)) ∧
    (core.policy ctx "scan_batch" = .error e →
      core.scan_batch texts ctx now = (.error e, false)) := by
  refine ⟨?_, ?_, ?_⟩ <;> intro hp <;>
    simp [SecurityCore.scan_prompt, SecurityCore.scan_output,
      SecurityCore.scan_batch, SecurityCore.authorize_operation, hok, hp]

/-- Claim C5 counterexample: a policy whose authorize check fails with a
(wrapped-capability) error makes `scan_prompt` return that very error,
which is not the policy-denied variant — refuting the claim as stated. -/
theorem policy_error_not_policy_denied_cex :
    failingPolicyCore.scan_prompt "hello" (ctxWithToken "s1") 0 =
      (.error (.shield { message := "policy backend unreachable" }), false) ∧
    GatewayError.isPolicyDenied
      (.shield { message := "policy backend unreachable" }) = false :=
  ⟨rfl, rfl⟩

/-- Claim C5 witness: the failing-policy gateway on a validated context
propagates the policy's error unchanged. -/
theorem policy_error_propagates_unchanged_witness :
    failingPolicyCore.validate_context (ctxWithToken "s1") 0 = .ok () ∧
    failingPolicyCore.policy (ctxWithToken "s1") "scan_prompt" =
      .error (.shield { message := "policy backend unreachable" }) ∧
    failingPolicyCore.scan_prompt "hello" (ctxWithToken "s1") 0 =
      (.error (.shield { message := "policy backend unreachable" }), false) :=
  ⟨rfl, rfl,
   (policy_error_propagates_unchanged failingPolicyCore (ctxWithToken "s1")
      "hello" [] 0 (.shield { message := "policy backend unreachable" }) rfl).1 rfl⟩

/-- Claim C6 (amended): `complete` and `fail` set `end_time` (and, when the
stored start time parses, `duration_ms`) atomically with the status they
install; but neither operation guards on the current status, so applied to
a span already Completed or Error they overwrite status and timing — the
exactly-once Running→terminal transition is a usage discipline, not
enforced by the operations. -/
theorem span_timing_set_with_transition (s : ExecutionSpan) (r aid : String)
    (now now' : Int) (st : Int) :
    ((s.complete now).status = .completed ∧
      (s.complete now).end_time = some (.valid now)) ∧
    ((s.fail r aid now).status = .error ∧
      (s.fail r aid now).end_time = some (.valid now)) ∧
    (s.start_time = .valid st →
      (s.complete now).duration_ms = some (u64ofInt (now - st)) ∧
      (s.fail r aid now).duration_ms = some (u64ofInt (now - st))) ∧
    ((ExecutionSpan.fail (s.complete now) r aid now').status = .error) ∧
    ((ExecutionSpan.complete (s.fail r aid now) now').status = .completed) := by
  cases s with
  | mk sid ty pid eid nm attrs stt et stat dur arts childs =>
    refine ⟨⟨rfl, rfl⟩, ⟨rfl, rfl⟩, ?_, rfl, rfl⟩
    intro h
    simp only [ExecutionSpan.start_time] at h
    subst h
    exact ⟨rfl, rfl⟩

/-- Claim C6 counterexample: a repo span completed at time 5 and then
failed at time 7 changes status Completed→Error and gets new `end_time`
and `duration_ms` — refuting "no sequence of operations changes the
status, end_time, or duration_ms of a span already Completed or Error". -/
theorem terminated_span_overwritten_cex :
    (ExecutionSpan.complete (ExecutionSpan.new_repo "e" "p" "sid" 0) 5).status
        = .completed ∧
    (ExecutionSpan.fail
        (ExecutionSpan.complete (ExecutionSpan.new_repo "e" "p" "sid" 0) 5)
        "boom" "a1" 7).status = .error ∧
    (ExecutionSpan.fail
        (ExecutionSpan.complete (ExecutionSpan.new_repo "e" "p" "sid" 0) 5)
        "boom" "a1" 7).end_time ≠
      (ExecutionSpan.complete (ExecutionSpan.new_repo "e" "p" "sid" 0) 5).end_time ∧
    (ExecutionSpan.fail
        (ExecutionSpan.complete (ExecutionSpan.new_repo "e" "p" "sid" 0) 5)
        "boom" "a1" 7).duration_ms ≠
      (ExecutionSpan.complete (ExecutionSpan.new_repo "e" "p" "sid" 0) 5).duration_ms := by
  refine ⟨rfl, rfl, ?_, ?_⟩ <;> decide

/-- Claim C6 witness: on a fresh repo span (parseable start time 0),
completing or failing at time 5 records a 5-millisecond duration. -/
theorem span_timing_set_with_transition_witness :
    (ExecutionSpan.new_repo "e" "p" "sid" 0).start_time = .valid 0 ∧
    ((ExecutionSpan.new_repo "e" "p" "sid" 0).complete 5).duration_ms =
      some (u64ofInt (5 - 0)) ∧
    ((ExecutionSpan.new_repo "e" "p" "sid" 0).fail "r" "a" 5).duration_ms =
      some (u64ofInt (5 - 0)) :=
  ⟨rfl,
   ((span_timing_set_with_transition
      (ExecutionSpan.new_repo "e" "p" "sid" 0) "r" "a" 5 9 0).2.2.1 rfl).1,
   ((span_timing_set_with_transition
      (ExecutionSpan.new_repo "e" "p" "sid" 0) "r" "a" 5 9 0).2.2.1 rfl).2⟩

/-- Claim C7 (amended): when the policy returns `allowed = false` the call
fails with policy-denied carrying the decision's reason (or `""` when
absent); with an always-deny policy this holds for every scan operation
whose context validates — but a context whose token does not validate
fails with the token error before the policy ever runs. -/
theorem policy_denial_policy_denied (core : SecurityCore)
    (ctx : GatewayContext) (text : String) (texts : List String) (now : Int)
    (reason : Option String) (hok : core.validate_context ctx now = .ok ()) :
    (core.policy ctx "scan_prompt" = .ok { allowed := false, reason := reason } →
      core.scan_prompt text ctx now =
        (.error (.policyDenied (reason.getD "")), false)) ∧
    (core.policy ctx "scan_output" = .ok { allowed := false, reason := reason } →
      core.scan_output text ctx now =
        (.error (.policyDenied (reason.getD "")), false)) ∧
    (core.policy ctx "scan_batch" = .ok { allowed := false, reason := reason } →
      core.scan_batch texts ctx now =
        (.error (.policyDenied (reason.getD "")), false)) := by
  refine ⟨?_, ?_, ?_⟩ <;> intro hp <;>
    simp [SecurityCore.scan_prompt, SecurityCore.scan_output,
      SecurityCore.scan_batch, SecurityCore.authorize_operation, hok, hp]

/-- Claim C7 counterexample: under the always-deny policy, a context whose
token was signed with the wrong secret fails every scan operation with
invalid-caller-token, not policy-denied — refuting "regardless of token
validity". -/
theorem deny_all_invalid_token_not_policy_denied_cex :
    denyAllCore.scan_prompt "hello" (ctxWithToken "s2") 0 =
      (.error (.invalidCallerToken "signature mismatch"), false) ∧
    denyAllCore.scan_output "hello" (ctxWithToken "s2") 0 =
      (.error (.invalidCallerToken "signature mismatch"), false) ∧
    denyAllCore.scan_batch ["hello"] (ctxWithToken "s2") 0 =
      (.error (.invalidCallerToken "signature mismatch"), false) ∧
    GatewayError.isPolicyDenied (.invalidCallerToken "signature mismatch") = false :=
  ⟨rfl, rfl, rfl, rfl⟩

/-- Claim C7 witness: the deny-all gateway on a validated context fails
`scan_prompt` with policy-denied and the configured reason. -/
theorem policy_denial_policy_denied_witness :
    denyAllCore.validate_context (ctxWithToken "s1") 0 = .ok () ∧
    denyAllCore.policy (ctxWithToken "s1") "scan_prompt" =
      .ok { allowed := false, reason := some "denied by test policy" } ∧
    denyAllCore.scan_prompt "hello" (ctxWithToken "s1") 0 =
      (.error (.policyDenied "denied by test policy"), false) :=
  ⟨rfl, rfl,
   (policy_denial_policy_denied denyAllCore (ctxWithToken "s1")
      "hello" [] 0 (some "denied by test policy") rfl).1 rfl⟩

/-- Claim C8: `fail(span, reason)` appends exactly one artifact, the
appended artifact has type "error" with the reason embedded in its data
payload, and the span ends up in Error status with `end_time` set. -/
theorem fail_appends_error_artifact (s : ExecutionSpan) (r aid : String) (now : Int) :
    (s.fail r aid now).artifacts.length = s.artifacts.length + 1 ∧
    (s.fail r aid now).artifacts.getLast? =
      some { artifact_id := aid, artifact_type := "error"
             data := .obj [("error_reason", .str r)], timestamp := .valid now } ∧
    (s.fail r aid now).status = .error ∧
    (s.fail r aid now).end_time = some (.valid now) := by
  cases s with
  | mk sid ty pid eid nm attrs st et stat dur arts childs =>
    refine ⟨?_, ?_, rfl, rfl⟩
    · simp [ExecutionSpan.fail, ExecutionSpan.artifacts]
    · simp [ExecutionSpan.fail, ExecutionSpan.artifacts, List.getLast?_concat]

/-- Claim C9: a token created under one secret never validates under a
different secret: the result is always the invalid-token signature-mismatch
error (never expired), at any validation instant. -/
theorem validate_wrong_secret_fails (c s1 s2 : String) (now now' : Int)
    (tok : CallerToken) (hc : c ≠ "") (hs1 : s1 ≠ "") (hne : s2 ≠ s1)
    (hcreate : CallerToken.create c s1 now = .ok tok) :
    tok.validate s2 none now' = .error (.invalidCallerToken "signature mismatch") := by
  unfold CallerToken.create at hcreate
  rw [if_neg hc, if_neg hs1] at hcreate
  injection hcreate with h
  subst h
  unfold CallerToken.validate
  simp only [SigStr.isEmptyStr, TimeStr.isEmptyStr, compute_signature]
  rw [if_neg hc]
  simp only [Bool.false_eq_true, if_false]
  rw [if_neg]
  intro h
  injection h with h1 h2
  exact hne h1.symm

/-- Claim C9 witness: a token created with secret `"s1"` fails validation
under `"s2"` with the signature-mismatch invalid-token error. -/
theorem validate_wrong_secret_fails_witness :
    (("svc" : String) ≠ "" ∧ ("s1" : String) ≠ "" ∧ ("s2" : String) ≠ "s1") ∧
    CallerToken.validate
      { caller_id := "svc"
        signature := compute_signature "svc" (TimeStr.render (.valid 0)) "s1"
        issued_at := .valid 0 } "s2" none 5 =
      .error (.invalidCallerToken "signature mismatch") :=
  ⟨⟨by decide, by decide, by decide⟩,
   validate_wrong_secret_fails "svc" "s1" "s2" 0 5 _
     (by decide) (by decide) (by decide) rfl⟩

/-- Claim C10: the three preset constructors accept any shared secret,
including the empty one; only the builder's `build` rejects an empty
secret; and a preset gateway built with the empty secret exists and rejects
a mismatched caller only at per-call token-validation time. -/
theorem presets_accept_empty_secret_builder_rejects :
    (∃ g : SecurityCore, SecurityCore.standard "" = .ok g) ∧
    (∃ g : SecurityCore, SecurityCore.strict "" = .ok g) ∧
    (∃ g : SecurityCore, SecurityCore.permissive "" = .ok g) ∧
    (∀ (p : Preset) (ttl : Int) (pol : Option CentralizedPolicy),
      SecurityCoreBuilder.build
        { shared_secret := "", preset := p, token_ttl_seconds := ttl, policy := pol } =
        .error (.invalidCallerToken "shared_secret is required for SecurityCore")) ∧
    (SecurityCore.mkBuilder.build =
      .error (.invalidCallerToken "shared_secret is required for SecurityCore")) ∧
    ((SecurityCore.standard "").map
        (fun g => g.scan_prompt "hello" (ctxWithToken "k") 0) =
      .ok (.error (.invalidCallerToken "signature mismatch"), false)) := by
  refine ⟨⟨_, rfl⟩, ⟨_, rfl⟩, ⟨_, rfl⟩, ?_, rfl, rfl⟩
  intro p ttl pol
  rfl
